import Mathlib

/-!
Shallow embedding of the resumable upload engine of the majlees bot
(`src/unnamed/part_003`, the `UploadService` class).  Network I/O is
modelled by an environment of scripted responses indexed by request
counters; stateful loops become explicit state passing with fuel for
the unbounded `while` loop.
-/

namespace Majlees

/-! ## Constants (lines 12-17 of the source) -/

def CHUNK_SIZE : Nat := 5 * 1024 * 1024

def MAX_RETRIES : Nat := 5

def MAX_SESSION_RESTARTS : Nat := 3

def TUS_THRESHOLD_MB : ℚ := 10

def RETRY_BASE_DELAY_MS : ℚ := 1000

def MAX_RETRY_DELAY_MS : ℚ := 30000

/-! ## Error classifier (`isSessionExpiredError`, lines 39-61) -/

/-- Contiguous-substring test on character lists; mirrors JavaScript
`String.prototype.includes`. -/
def containsSub : List Char → List Char → Bool
  | hay, needle =>
    needle.isPrefixOf hay ||
      match hay with
      | [] => false
      | _ :: t => containsSub t needle

/-- Character-wise lowercasing; models `String.prototype.toLowerCase`
(the phrase table is ASCII, where the two agree). -/
def lowerChars (s : String) : List Char := s.data.map Char.toLower

/-- The phrase table of lines 44-55. -/
def sessionExpiredPatterns : List String :=
  ["UPLOAD_NOT_FOUND", "expired", "corrupted", "Something went wrong",
   "not found", "No such object", "metadata", "does not exist",
   "invalid upload", "session"]

def isSessionExpiredError (statusCode : Nat) (errorText : String) : Bool :=
  if statusCode = 404 then true
  else
    let lowerErrorText := lowerChars errorText
    sessionExpiredPatterns.any fun pattern =>
      containsSub lowerErrorText (lowerChars pattern)

/-! ## Retry delay (`getRetryDelay`, lines 66-73).  `Math.random()` is an
input `rand ∈ [0,1)`; the float arithmetic of the source is exact over ℚ
for these operands except the final `Math.round`, modelled by `round`. -/

def getRetryDelay (retryCount : Nat) (rand : ℚ) : ℤ :=
  let exponentialDelay := RETRY_BASE_DELAY_MS * 2 ^ retryCount
  let cappedDelay := min exponentialDelay MAX_RETRY_DELAY_MS
  let jitter := cappedDelay * (1 / 4) * (rand * 2 - 1)
  round (cappedDelay + jitter)

/-! ## Upload path choice (`uploadFromLocalPath`, lines 218-238).
`fileSizeMB = fileStats.size / 1024 / 1024` divides by powers of two,
which is exact in binary floating point for any real file size, so the
ℚ model is faithful. -/

inductive UploadPath where
  | simple
  | tusChunked
  deriving DecidableEq

def choosePath (fileSizeBytes : Nat) : UploadPath :=
  let fileSizeMB : ℚ := (fileSizeBytes : ℚ) / 1024 / 1024
  if fileSizeMB > TUS_THRESHOLD_MB then .tusChunked else .simple

/-! ## Network and file-system events.  An `Env` scripts the responses
the outside world gives: the n-th create/PATCH/HEAD request and the
n-th file read.  Headers are modelled post-parsing (`Upload-Offset` as
`Option Nat`, `X-Lecture-Id` as `Option String`). -/

structure HttpResp where
  status : Nat
  uploadOffset : Option Nat
  xLectureId : Option String
  body : String
  deriving DecidableEq

/-- A PATCH or HEAD either yields a response or the `fetch` throws. -/
inductive NetEvent where
  | resp (r : HttpResp)
  | netError (msg : String)
  deriving DecidableEq

/-- Response to the session-create POST (status and `Location` header),
or a thrown `fetch`. -/
inductive CreateEvent where
  | resp (status : Nat) (location : Option String)
  | netError (msg : String)
  deriving DecidableEq

/-- Result of one `fileHandle.read`: the byte count actually read, or a
thrown I/O error. -/
inductive ReadEvent where
  | bytes (bytesRead : Nat)
  | throwErr (msg : String)
  deriving DecidableEq

structure Env where
  create : Nat → CreateEvent
  patch : Nat → NetEvent
  head : Nat → NetEvent
  read : Nat → Nat → ReadEvent

/-- `UploadResult` of lines 27-33 (the optional `sessionExpired` marker
of `uploadChunksStreaming` is carried by `ChunkOut` below). -/
structure UploadResult where
  success : Bool
  lectureId : Option String
  error : Option String
  errorCode : Option String
  isRateLimited : Bool
  deriving DecidableEq

/-- Engine state of `uploadChunksStreaming`: the mutable locals
(`offset`, `lectureId`), instrumentation logs of issued requests and
reads, and whether the file handle is still open.  `sent` records
`(Upload-Offset header, chunk byte count)` per PATCH in order;
`readsLog` records `(file position, bytes requested)` per read. -/
structure EngSt where
  offset : Nat
  lectureId : Option String
  sent : List (Nat × Nat)
  headCount : Nat
  readsLog : List (Nat × Nat)
  handleOpen : Bool
  deriving DecidableEq

/-- Mode string of `open(filePath, "r")` at line 534. -/
def fileOpenMode : String := "r"

/-- State right after `open(filePath, "r")` with empty logs. -/
def engStart : EngSt := ⟨0, none, [], 0, [], true⟩

def readFailMsg (chunkSize bytesRead : Nat) : String :=
  s!"Failed to read chunk from file: expected {chunkSize}, got {bytesRead}"

def serverErrMsg (status : Nat) (errorText : String) : String :=
  let snippet := errorText.take 200
  s!"Server error {status}: {snippet}"

/-- `checkServerOffset` (lines 659-693): classify one HEAD probe
response.  A thrown `fetch` yields `⟨false, none⟩`. -/
structure ProbeResult where
  sessionExpired : Bool
  offset : Option Nat
  deriving DecidableEq

def checkServerOffset (ev : NetEvent) : ProbeResult :=
  match ev with
  | .netError _ => ⟨false, none⟩
  | .resp r =>
    if r.status = 404 then ⟨true, none⟩
    else if 400 ≤ r.status ∧ isSessionExpiredError r.status r.body then ⟨true, none⟩
    else ⟨false, r.uploadOffset⟩

/-- Outcome of one iteration of the chunk retry `for` loop
(lines 542-632). -/
inductive AttemptOut where
  | succeeded (st : EngSt)
  | retryFail (lastError : Option String) (st : EngSt)
  | expiredAb (st : EngSt)
  | thrownAb (msg : String) (st : EngSt)
  deriving DecidableEq

def AttemptOut.state : AttemptOut → EngSt
  | .succeeded st => st
  | .retryFail _ st => st
  | .expiredAb st => st
  | .thrownAb _ st => st

/-- Lines 562-631: read the chunk at `[offset, chunkEnd)`, send the
PATCH, and classify its response.  A short read retries without
sending; expiry closes the handle and aborts. -/
def attemptBody (env : Env) (fileSize : Nat) (st : EngSt) : AttemptOut :=
  let chunkEnd := min (st.offset + CHUNK_SIZE) fileSize
  let chunkSize := chunkEnd - st.offset
  match env.read st.readsLog.length chunkSize with
  | .throwErr msg =>
      .thrownAb msg { st with readsLog := st.readsLog ++ [(st.offset, chunkSize)] }
  | .bytes bytesRead =>
      let st1 := { st with readsLog := st.readsLog ++ [(st.offset, chunkSize)] }
      if bytesRead ≠ chunkSize then
        .retryFail (some (readFailMsg chunkSize bytesRead)) st1
      else
        match env.patch st1.sent.length with
        | .netError msg =>
            .retryFail (some msg) { st1 with sent := st1.sent ++ [(st1.offset, chunkSize)] }
        | .resp r =>
            let st2 := { st1 with sent := st1.sent ++ [(st1.offset, chunkSize)] }
            if r.status = 204 ∨ r.status = 200 then
              .succeeded { st2 with
                offset := r.uploadOffset.getD chunkEnd,
                lectureId := match r.xLectureId with
                             | some lid => some lid
                             | none => st2.lectureId }
            else if r.status = 409 then
              .retryFail (some "Offset mismatch")
                (match r.uploadOffset with
                 | some o => { st2 with offset := o }
                 | none => st2)
            else if isSessionExpiredError r.status r.body then
              .expiredAb { st2 with handleOpen := false }
            else
              .retryFail (some (serverErrMsg r.status r.body)) st2

/-- One full retry-loop iteration: on `retry > 0`, first the backoff
sleep and the HEAD probe (lines 543-560), then `attemptBody`. -/
def attemptStep (env : Env) (fileSize : Nat) (retry : Nat) (st : EngSt) : AttemptOut :=
  if retry > 0 then
    let headResult := checkServerOffset (env.head st.headCount)
    let st1 := { st with headCount := st.headCount + 1 }
    if headResult.sessionExpired then
      .expiredAb { st1 with handleOpen := false }
    else
      let st2 :=
        match headResult.offset with
        | some o => if o ≠ st1.offset then { st1 with offset := o } else st1
        | none => st1
      attemptBody env fileSize st2
  else
    attemptBody env fileSize st

/-- Outcome of the whole retry `for` loop for one chunk. -/
inductive RetryOut where
  | succ (st : EngSt)
  | exhausted (lastError : Option String) (st : EngSt)
  | expired (st : EngSt)
  | thrown (msg : String) (st : EngSt)
  deriving DecidableEq

def RetryOut.state : RetryOut → EngSt
  | .succ st => st
  | .exhausted _ st => st
  | .expired st => st
  | .thrown _ st => st

/-- `for (retry = 0; retry < MAX_RETRIES && !success; retry++)`,
structural on the remaining attempt budget. -/
def retryLoopAux (env : Env) (fileSize : Nat) :
    Nat → Nat → Option String → EngSt → RetryOut
  | 0, _retry, lastError, st => .exhausted lastError st
  | remaining + 1, retry, _lastError, st =>
    match attemptStep env fileSize retry st with
    | .succeeded st' => .succ st'
    | .retryFail newErr st' => retryLoopAux env fileSize remaining (retry + 1) newErr st'
    | .expiredAb st' => .expired st'
    | .thrownAb msg st' => .thrown msg st'

/-- Result alternatives of `uploadChunksStreaming`: plain success,
terminal chunk failure, `sessionExpired: true`, or a rethrown
exception (caught by `uploadWithTusStreaming`). -/
inductive ChunkOut where
  | done (r : UploadResult)
  | failedOut (r : UploadResult)
  | expiredOut
  | thrown (msg : String)
  deriving DecidableEq

/-- The `while (offset < fileSize)` loop (lines 537-653), with fuel for
the unbounded iteration count; `none` = out of fuel (the source would
still be looping).  Every returned state has the handle closed at the
matching `fileHandle.close()` site (643, 635, 552/621, 651). -/
def chunkWhile (env : Env) (fileSize : Nat) : Nat → EngSt → Option (ChunkOut × EngSt)
  | 0, _ => none
  | fuel + 1, st =>
    if st.offset < fileSize then
      match retryLoopAux env fileSize MAX_RETRIES 0 none st with
      | .succ st' => chunkWhile env fileSize fuel st'
      | .exhausted lastError st' =>
          some (.failedOut
            ⟨false, none, some (lastError.getD "Failed to upload chunk after retries"), none, false⟩,
            { st' with handleOpen := false })
      | .expired st' => some (.expiredOut, st')
      | .thrown msg st' => some (.thrown msg, { st' with handleOpen := false })
    else
      some (.done ⟨true, st.lectureId, none, none, false⟩, { st with handleOpen := false })

/-- `uploadChunksStreaming` entry: open the handle, run the loop. -/
def uploadChunksStreaming (env : Env) (fileSize : Nat) (fuel : Nat) :
    Option (ChunkOut × EngSt) :=
  chunkWhile env fileSize fuel engStart

def rateLimitedResult : UploadResult :=
  ⟨false, none, some "Too many uploads. Please wait before uploading more files.",
   some "RATE_LIMITED", true⟩

def createFailMsg (status : Nat) : String :=
  "Failed to create upload: " ++ toString status

/-- A new session starts the chunk loop afresh (offset 0, no lecture
id, handle reopened); the request logs persist across restarts. -/
def freshSession (st : EngSt) : EngSt :=
  { st with offset := 0, lectureId := none, handleOpen := true }

/-- `uploadWithTusStreaming`'s restart `while` loop (lines 418-516).
`itersLeft` equals `MAX_SESSION_RESTARTS + 1 - sessionRestarts`
throughout, so hitting 0 is exactly the `while` condition failing.
The `catch` of lines 503-509 turns thrown events into error results.
The returned `Nat` counts create requests issued. -/
def tusGo (env : Env) (fileSize : Nat) (chunkFuel : Nat) :
    Nat → Nat → Nat → EngSt → Option (UploadResult × EngSt × Nat)
  | 0, _sessionRestarts, createCount, st =>
      some (⟨false, none, some "Upload failed after multiple session restarts", none, false⟩,
            st, createCount)
  | itersLeft + 1, sessionRestarts, createCount, st =>
    match env.create createCount with
    | .netError msg => some (⟨false, none, some msg, none, false⟩, st, createCount + 1)
    | .resp status location =>
      if status ≠ 201 then
        if status = 429 then
          some (rateLimitedResult, st, createCount + 1)
        else
          some (⟨false, none, some (createFailMsg status), none, false⟩, st, createCount + 1)
      else
        match location with
        | none =>
            some (⟨false, none, some "No upload location returned", none, false⟩,
                  st, createCount + 1)
        | some _loc =>
          match chunkWhile env fileSize chunkFuel (freshSession st) with
          | none => none
          | some (out, st') =>
            match out with
            | .expiredOut =>
              let sr := sessionRestarts + 1
              if sr > MAX_SESSION_RESTARTS then
                some (⟨false, none,
                       some "Upload session expired multiple times. Please try again later.",
                       none, false⟩, st', createCount + 1)
              else
                tusGo env fileSize chunkFuel itersLeft sr (createCount + 1) st'
            | .done r => some (r, st', createCount + 1)
            | .failedOut r => some (r, st', createCount + 1)
            | .thrown msg => some (⟨false, none, some msg, none, false⟩, st', createCount + 1)

/-- `uploadWithTusStreaming` entry point. -/
def uploadWithTusStreaming (env : Env) (fileSize : Nat) (chunkFuel : Nat) :
    Option (UploadResult × EngSt × Nat) :=
  tusGo env fileSize chunkFuel (MAX_SESSION_RESTARTS + 1) 0 0 engStart

/-! ## File source resolver and cleanup (`resolveFilePath` lines 261-353,
`cleanupFiles` lines 698-722, `uploadFromLocalPath` lines 240-248).
The file system is an environment: which paths `stat` succeeds on,
the configured mounted-volume root, whether `docker cp` / the HTTP
download succeed, and the generated temp file name. -/

def botApiRoot : String := "/var/lib/telegram-bot-api/"

/-- `String.prototype.startsWith`, on the character lists. -/
def strStartsWith (s p : String) : Bool := p.data.isPrefixOf s.data

structure FsEnv where
  statOk : String → Bool
  hostFilesPath : Option String
  dockerCpOk : Bool
  httpOk : Bool
  tempName : String

/-- Successful resolution: the readable path plus the temp file the
resolver created, if any. -/
structure ResolveOut where
  actualPath : String
  tempPath : Option String
  deriving DecidableEq

/-- `path.join(hostFilesPath, relativePath)` for the one shape used
here (root without trailing separator, relative suffix). -/
def joinPath (root rel : String) : String := root ++ "/" ++ rel

def resolveFilePath (fs : FsEnv) (filePath : String) : Option ResolveOut :=
  if strStartsWith filePath botApiRoot then
    if fs.statOk filePath then some ⟨filePath, none⟩
    else
      let viaMount : Option ResolveOut :=
        match fs.hostFilesPath with
        | some root =>
          let hostPath := joinPath root (filePath.drop botApiRoot.length)
          if fs.statOk hostPath then some ⟨hostPath, none⟩ else none
        | none => none
      match viaMount with
      | some r => some r
      | none =>
        if fs.dockerCpOk then some ⟨fs.tempName, some fs.tempName⟩ else none
  else
    if fs.httpOk then some ⟨fs.tempName, some fs.tempName⟩ else none

/-- `cleanupFiles`: the list of paths unlinked, in order. -/
def cleanupFiles (actualFilePath : String) (tempFilePath : Option String)
    (originalPath : String) : List String :=
  (match tempFilePath with
   | some t => if t ≠ actualFilePath then [t] else []
   | none => []) ++
  (if strStartsWith originalPath botApiRoot then [actualFilePath] else [])

/-- Lines 240-248 of `uploadFromLocalPath`: cleanup runs only when the
upload result succeeded. -/
def uploadFromLocalPathDeletions (resolved : ResolveOut) (result : UploadResult)
    (originalPath : String) : List String :=
  if result.success then
    cleanupFiles resolved.actualPath resolved.tempPath originalPath
  else []

/-! ## Sanity predicates used by the amended invariants -/

/-- A server that only ever reports offsets within the declared length
(what a conformant TUS server does; the code adopts reported offsets
unvalidated). -/
def EnvSane (env : Env) (fileSize : Nat) : Prop :=
  (∀ i r o, env.patch i = .resp r → r.uploadOffset = some o → o ≤ fileSize) ∧
  (∀ i r o, env.head i = .resp r → r.uploadOffset = some o → o ≤ fileSize)

/-- Every logged read asked for exactly `min(CHUNK_SIZE, fileSize - pos)`
bytes at a position within the file. -/
def ReadsOk (fileSize : Nat) (st : EngSt) : Prop :=
  ∀ p ∈ st.readsLog, p.2 = min CHUNK_SIZE (fileSize - p.1) ∧ p.1 + p.2 ≤ fileSize

/-! ## Concrete scripted environments for the scenario runs -/

/-- All reads succeed in full; HEAD is never consulted. -/
def fullReads : Nat → Nat → ReadEvent := fun _ requested => .bytes requested

/-- Scenario of claim C3: 10 chunks of 5 MiB; the 5th PATCH returns the
expiry status, every other PATCH acknowledges the sent chunk; the last
PATCH of the second session carries the lecture id. -/
def envC3 : Env :=
  { create := fun _ => .resp 201 (some "/api/v1/uploads/u1"),
    patch := fun i =>
      if i < 4 then .resp ⟨204, some ((i + 1) * CHUNK_SIZE), none, ""⟩
      else if i = 4 then .resp ⟨404, none, none, ""⟩
      else if i = 14 then .resp ⟨204, some ((i - 4) * CHUNK_SIZE), some "lec42", ""⟩
      else .resp ⟨204, some ((i - 4) * CHUNK_SIZE), none, ""⟩,
    head := fun _ => .netError "unused",
    read := fullReads }

/-- Every session's first PATCH reports the session gone. -/
def envExpireAll : Env :=
  { create := fun _ => .resp 201 (some "/api/v1/uploads/u1"),
    patch := fun _ => .resp ⟨404, none, none, ""⟩,
    head := fun _ => .netError "unused",
    read := fullReads }

/-- A 204 PATCH response with no `Upload-Offset` header. -/
def envNoHeader : Env :=
  { create := fun _ => .resp 201 (some "/api/v1/uploads/u1"),
    patch := fun _ => .resp ⟨204, none, none, ""⟩,
    head := fun _ => .netError "unused",
    read := fullReads }

/-- A 204 PATCH response reporting offset 2 on a 1-byte file. -/
def envOverLength : Env :=
  { create := fun _ => .resp 201 (some "/api/v1/uploads/u1"),
    patch := fun _ => .resp ⟨204, some 2, none, ""⟩,
    head := fun _ => .netError "unused",
    read := fullReads }

/-- Every PATCH fails with a transient 500 whose body is drawn from
`b`; HEAD probes answer 200 with no offset header. -/
def transientEnv (b : Nat → String) : Env :=
  { create := fun _ => .resp 201 (some "/api/v1/uploads/u1"),
    patch := fun i => .resp ⟨500, none, none, b i⟩,
    head := fun _ => .resp ⟨200, none, none, ""⟩,
    read := fullReads }

/-- A 204 success acknowledging the whole 5-byte file whose body
happens to match the phrase table. -/
def envBodySuccess : Env :=
  { create := fun _ => .resp 201 (some "/api/v1/uploads/u1"),
    patch := fun _ => .resp ⟨204, some 5, none, "session expired"⟩,
    head := fun _ => .netError "unused",
    read := fullReads }

/-- One chunk PATCH that answers with an expiry signature in the body. -/
def envExpiryBody : Env :=
  { create := fun _ => .resp 201 (some "/api/v1/uploads/u1"),
    patch := fun _ => .resp ⟨500, none, none, "token expired"⟩,
    head := fun _ => .netError "unused",
    read := fullReads }

/-- Session creation is rate limited. -/
def env429 : Env :=
  { create := fun _ => .resp 429 none,
    patch := fun _ => .netError "unused",
    head := fun _ => .netError "unused",
    read := fullReads }

/-- Session creation fails with a 500. -/
def envCreate500 : Env :=
  { create := fun _ => .resp 500 none,
    patch := fun _ => .netError "unused",
    head := fun _ => .netError "unused",
    read := fullReads }

/-- One clean 5-byte upload acknowledged in one chunk. -/
def envClean : Env :=
  { create := fun _ => .resp 201 (some "/api/v1/uploads/u1"),
    patch := fun _ => .resp ⟨204, some 5, some "lec1", ""⟩,
    head := fun _ => .netError "unused",
    read := fullReads }

/-- Reads come back short: 3 bytes whatever was requested. -/
def envShortRead : Env :=
  { create := fun _ => .resp 201 (some "/api/v1/uploads/u1"),
    patch := fun _ => .netError "unused",
    head := fun _ => .netError "unused",
    read := fun _ _ => .bytes 3 }

/-- File-system environment where only the HTTP download works. -/
def fsHttpOnly : FsEnv :=
  { statOk := fun _ => false,
    hostFilesPath := none,
    dockerCpOk := false,
    httpOk := true,
    tempName := "/tmp/telegram-file-1.tmp" }

/-! ## Helper lemmas -/

theorem isPrefixOf_map (f : Char → Char) {n h : List Char} (hp : n.isPrefixOf h = true) :
    (n.map f).isPrefixOf (h.map f) = true := by
  rw [List.isPrefixOf_iff_prefix] at hp ⊢
  exact hp.map f

theorem containsSub_nil (n : List Char) : containsSub [] n = n.isPrefixOf [] := by
  unfold containsSub; simp

theorem containsSub_cons (c : Char) (t n : List Char) :
    containsSub (c :: t) n = (n.isPrefixOf (c :: t) || containsSub t n) := by
  conv_lhs => unfold containsSub

theorem containsSub_map (f : Char → Char) :
    ∀ (h n : List Char), containsSub h n = true → containsSub (h.map f) (n.map f) = true
  | [], n, hc => by
    rw [containsSub_nil] at hc
    rw [List.map_nil, containsSub_nil]
    exact isPrefixOf_map f hc
  | c :: t, n, hc => by
    rw [containsSub_cons, Bool.or_eq_true] at hc
    rw [List.map_cons, containsSub_cons, Bool.or_eq_true]
    rcases hc with hc | hc
    · exact Or.inl (by simpa using isPrefixOf_map f hc)
    · exact Or.inr (containsSub_map f t n hc)

/-- The two `let`s of `getRetryDelay`, unfolded. -/
theorem getRetryDelay_eq (retryCount : Nat) (rand : ℚ) :
    getRetryDelay retryCount rand =
      round (min (RETRY_BASE_DELAY_MS * 2 ^ retryCount) MAX_RETRY_DELAY_MS
        + min (RETRY_BASE_DELAY_MS * 2 ^ retryCount) MAX_RETRY_DELAY_MS * (1 / 4)
          * (rand * 2 - 1)) := rfl

/-! ## Claim theorems -/

/-- C2 counterexample: a 204 PATCH response whose body matches the
phrase table satisfies the expiry predicate, yet the engine takes the
success branch (line 588, which never reads the body) and the run
completes successfully instead of aborting with `sessionExpired` — so
"when any chunk PATCH response satisfies it, the engine aborts" is
false as stated. -/
theorem c2_counterexample :
    isSessionExpiredError 204 "session expired" = true ∧
    ((chunkWhile envBodySuccess 5 3 engStart).map fun x => x.1) =
      some (.done ⟨true, none, none, none, false⟩) ∧
    envBodySuccess.patch 0 = .resp ⟨204, some 5, none, "session expired"⟩ :=
  ⟨by decide, rfl, rfl⟩

/-- C2 amended: `isSessionExpiredError` is a pure predicate of status
code and body that returns true for every 404 status and for every
body containing one of the known fragility phrases; and a chunk PATCH
response that the engine treats as an error (status outside
{200, 204, 409} — 200/204 take the success branch and 409 the offset
reconciliation branch without consulting the predicate) and that
satisfies it makes the retry loop abort immediately with the
session-expired signal after that single PATCH, regardless of how much
retry budget remains. -/
theorem c2_expiry_predicate_and_abort :
    (∀ errorText, isSessionExpiredError 404 errorText = true) ∧
    (∀ statusCode errorText pattern, pattern ∈ sessionExpiredPatterns →
      containsSub errorText.data pattern.data = true →
      isSessionExpiredError statusCode errorText = true) ∧
    (∀ (env : Env) (fileSize : Nat) (st : EngSt) (r : HttpResp) (rem : Nat),
      env.read st.readsLog.length (min (st.offset + CHUNK_SIZE) fileSize - st.offset)
        = .bytes (min (st.offset + CHUNK_SIZE) fileSize - st.offset) →
      env.patch st.sent.length = .resp r →
      r.status ≠ 204 → r.status ≠ 200 → r.status ≠ 409 →
      isSessionExpiredError r.status r.body = true →
      retryLoopAux env fileSize (rem + 1) 0 none st =
        .expired { st with
          sent := st.sent ++ [(st.offset, min (st.offset + CHUNK_SIZE) fileSize - st.offset)],
          readsLog :=
            st.readsLog ++ [(st.offset, min (st.offset + CHUNK_SIZE) fileSize - st.offset)],
          handleOpen := false }) := by
  refine ⟨fun errorText => by simp [isSessionExpiredError], ?_, ?_⟩
  · intro statusCode errorText pattern hmem hsub
    unfold isSessionExpiredError
    split
    · rfl
    · simp only [List.any_eq_true]
      exact ⟨pattern, hmem, containsSub_map Char.toLower errorText.data pattern.data hsub⟩
  · intro env fileSize st r rem hread hpatch h204 h200 h409 hexp
    simp [retryLoopAux, attemptStep, attemptBody, hread, hpatch, h204, h200, h409, hexp]

/-- C2 witness: the predicate at a 404, at a fragility-phrase body, and
an abort run with four retries still in budget. -/
theorem c2_witness :
    isSessionExpiredError 404 "" = true ∧
    isSessionExpiredError 500 "token expired" = true ∧
    retryLoopAux envExpiryBody 1 (4 + 1) 0 none engStart =
      .expired { engStart with sent := [(0, 1)], readsLog := [(0, 1)], handleOpen := false } :=
  ⟨c2_expiry_predicate_and_abort.1 "",
   c2_expiry_predicate_and_abort.2.1 500 "token expired" "expired" (by decide) (by decide),
   c2_expiry_predicate_and_abort.2.2 envExpiryBody 1 engStart
     ⟨500, none, none, "token expired"⟩ 4 rfl rfl
     (by decide) (by decide) (by decide) (by decide)⟩

/-- C4: the facade sends a file through the chunked TUS path exactly
when its size exceeds 10 MB (10·1024·1024 bytes); a file of exactly
the threshold size uses the simple path and one byte more uses the
chunked path. -/
theorem c4_threshold_path :
    (∀ fileSizeBytes, choosePath fileSizeBytes = .tusChunked ↔
      10 * 1024 * 1024 < fileSizeBytes) ∧
    choosePath (10 * 1024 * 1024) = .simple ∧
    choosePath (10 * 1024 * 1024 + 1) = .tusChunked := by
  have key : ∀ s : Nat, ((s : ℚ) / 1024 / 1024 > TUS_THRESHOLD_MB) ↔ 10 * 1024 * 1024 < s := by
    intro s
    rw [TUS_THRESHOLD_MB, div_div, gt_iff_lt,
      lt_div_iff₀ (by norm_num : (0 : ℚ) < 1024 * 1024)]
    constructor
    · intro h
      have h2 : ((10 * 1024 * 1024 : ℕ) : ℚ) < (s : ℚ) := by push_cast; linarith
      exact_mod_cast h2
    · intro h
      have h2 : ((10 * 1024 * 1024 : ℕ) : ℚ) < (s : ℚ) := by exact_mod_cast h
      push_cast at h2; linarith
  have cp : ∀ s : Nat, choosePath s =
      if ((s : ℚ) / 1024 / 1024 > TUS_THRESHOLD_MB) then UploadPath.tusChunked
      else UploadPath.simple := fun _ => rfl
  refine ⟨fun s => ?_, ?_, ?_⟩
  · rw [cp s]
    split_ifs with h
    · exact iff_of_true rfl ((key s).mp h)
    · exact iff_of_false (by decide) (fun hlt => h ((key s).mpr hlt))
  · rw [cp _]
    split_ifs with h
    · exact absurd ((key _).mp h) (by norm_num)
    · rfl
  · rw [cp _]
    split_ifs with h
    · rfl
    · exact absurd ((key _).mpr (by norm_num)) h

/-- C5: for every retry count `n` and random draw `rand ∈ [0,1)`, the
computed delay lies within ±25% of `min(1000·2^n, 30000)` ms; the
attempt budget per chunk is 5; and five consecutive transient server
errors exhaust it, yielding the terminal failure result that carries
the message of the last (fifth) observed error. -/
theorem c5_backoff_and_budget :
    (∀ (retryCount : Nat) (rand : ℚ), 0 ≤ rand → rand < 1 →
      |(getRetryDelay retryCount rand : ℚ) -
        min (RETRY_BASE_DELAY_MS * 2 ^ retryCount) MAX_RETRY_DELAY_MS| ≤
        min (RETRY_BASE_DELAY_MS * 2 ^ retryCount) MAX_RETRY_DELAY_MS / 4) ∧
    MAX_RETRIES = 5 ∧
    (∀ b : Nat → String, (∀ i, isSessionExpiredError 500 (b i) = false) →
      chunkWhile (transientEnv b) 1 1 engStart =
        some (.failedOut ⟨false, none, some (serverErrMsg 500 (b 4)), none, false⟩,
          ⟨0, none, [(0, 1), (0, 1), (0, 1), (0, 1), (0, 1)], 4,
           [(0, 1), (0, 1), (0, 1), (0, 1), (0, 1)], false⟩)) := by
  refine ⟨?_, rfl, ?_⟩
  · intro n r h0 h1
    set M : ℕ := min (250 * 2 ^ n) 7500 with hM
    have hM250 : 250 ≤ M := by
      rw [hM]
      exact le_min (Nat.le_mul_of_pos_right 250 (Nat.pos_pow_of_pos n (by norm_num)))
        (by norm_num)
    have hm : (250 : ℚ) ≤ (M : ℚ) := by exact_mod_cast hM250
    have hcap : min (RETRY_BASE_DELAY_MS * 2 ^ n) MAX_RETRY_DELAY_MS = 4 * (M : ℚ) := by
      rw [RETRY_BASE_DELAY_MS, MAX_RETRY_DELAY_MS, hM]
      push_cast [Nat.cast_min]
      rcases le_total ((250 : ℚ) * 2 ^ n) 7500 with h | h
      · rw [min_eq_left h, min_eq_left (by linarith)]
        ring
      · rw [min_eq_right h, min_eq_right (by linarith)]
        norm_num
    rw [getRetryDelay_eq, hcap]
    have hx : 4 * (M : ℚ) + 4 * (M : ℚ) * (1 / 4) * (r * 2 - 1) = (M : ℚ) * (2 * r + 3) := by
      ring
    rw [hx]
    have hlb : (3 * (M : ℤ) : ℤ) ≤ round ((M : ℚ) * (2 * r + 3)) := by
      rw [round_eq, Int.le_floor]
      push_cast
      nlinarith
    have hub : round ((M : ℚ) * (2 * r + 3)) ≤ 5 * (M : ℤ) := by
      rw [round_eq]
      have hf : ⌊(M : ℚ) * (2 * r + 3) + 1 / 2⌋ < 5 * (M : ℤ) + 1 := by
        rw [Int.floor_lt]
        push_cast
        nlinarith
      omega
    rw [abs_le]
    have hlb' : (3 * (M : ℚ) : ℚ) ≤ (round ((M : ℚ) * (2 * r + 3)) : ℚ) := by
      exact_mod_cast hlb
    have hub' : ((round ((M : ℚ) * (2 * r + 3)) : ℤ) : ℚ) ≤ 5 * (M : ℚ) := by
      exact_mod_cast hub
    constructor <;> linarith
  · intro b hb
    simp [chunkWhile, retryLoopAux, attemptStep, attemptBody, checkServerOffset,
      transientEnv, fullReads, engStart, hb, MAX_RETRIES, CHUNK_SIZE]

/-- C5 witness: the delay bound at retry count 2 with `rand = 1/2`,
and the exhaustion run with constant transient body `"boom"`. -/
theorem c5_witness :
    |(getRetryDelay 2 (1 / 2) : ℚ) - min (RETRY_BASE_DELAY_MS * 2 ^ 2) MAX_RETRY_DELAY_MS| ≤
      min (RETRY_BASE_DELAY_MS * 2 ^ 2) MAX_RETRY_DELAY_MS / 4 ∧
    chunkWhile (transientEnv fun _ => "boom") 1 1 engStart =
      some (.failedOut ⟨false, none, some (serverErrMsg 500 "boom"), none, false⟩,
        ⟨0, none, [(0, 1), (0, 1), (0, 1), (0, 1), (0, 1)], 4,
         [(0, 1), (0, 1), (0, 1), (0, 1), (0, 1)], false⟩) :=
  ⟨c5_backoff_and_budget.1 2 (1 / 2) (by norm_num) (by norm_num),
   c5_backoff_and_budget.2.2 (fun _ => "boom")
     (fun _ => by show isSessionExpiredError 500 "boom" = false; decide)⟩

/-- C1 counterexample: a 204 PATCH response that carries no
`Upload-Offset` header still advances the local offset (to the locally
computed chunk end, here 5 = the whole 5-byte file), so a successful
PATCH does not always adopt a server-reported offset value. -/
theorem c1_counterexample :
    ((chunkWhile envNoHeader 5 3 engStart).map fun x => (x.1, x.2.offset)) =
      some (.done ⟨true, none, none, none, false⟩, 5) ∧
    envNoHeader.patch 0 = .resp ⟨204, none, none, ""⟩ := ⟨rfl, rfl⟩

/-- C1 amended: on a successful chunk PATCH (status 200 or 204) the new
local offset equals the server-reported `Upload-Offset` value when that
header is present; when it is absent the code falls back to the locally
computed chunk end `offset + n`. -/
theorem c1_amended (env : Env) (fileSize : Nat) (st : EngSt) (r : HttpResp)
    (hread : env.read st.readsLog.length (min (st.offset + CHUNK_SIZE) fileSize - st.offset)
      = .bytes (min (st.offset + CHUNK_SIZE) fileSize - st.offset))
    (hpatch : env.patch st.sent.length = .resp r)
    (hok : r.status = 204 ∨ r.status = 200) :
    attemptStep env fileSize 0 st =
      .succeeded { st with
        offset := r.uploadOffset.getD (min (st.offset + CHUNK_SIZE) fileSize),
        lectureId := match r.xLectureId with
                     | some lid => some lid
                     | none => st.lectureId,
        sent := st.sent ++ [(st.offset, min (st.offset + CHUNK_SIZE) fileSize - st.offset)],
        readsLog :=
          st.readsLog ++ [(st.offset, min (st.offset + CHUNK_SIZE) fileSize - st.offset)] } := by
  simp [attemptStep, attemptBody, hread, hpatch, hok]

/-- C1 amended witness: run of `c1_amended` on the header-less 204. -/
theorem c1_amended_witness :
    attemptStep envNoHeader 5 0 engStart =
      .succeeded { engStart with offset := 5, sent := [(0, 5)], readsLog := [(0, 5)] } :=
  c1_amended envNoHeader 5 engStart ⟨204, none, none, ""⟩ rfl rfl (Or.inl rfl)

/-- C3 counterexample: in the scripted run where chunk 5 of 10 reports
the session gone and the restarted session then succeeds, the total
number of chunk PATCH requests is 15 (5 in the first session, 10 in the
second), not the 20 the claim states. -/
theorem c3_counterexample :
    ((uploadWithTusStreaming envC3 52428800 20).map fun x => (x.1.success, x.2.1.sent.length)) =
      some (true, 15) ∧ (15 : Nat) ≠ 20 := ⟨rfl, by decide⟩

/-- C7: a 429 on session creation immediately yields the structured
rate-limited result, and any other non-201 creation status yields the
terminal create error; in both cases the final state still has an empty
PATCH log, i.e. zero transfer requests were issued. -/
theorem c7_create_gate (env : Env) (fileSize chunkFuel : Nat) :
    (∀ location, env.create 0 = .resp 429 location →
      uploadWithTusStreaming env fileSize chunkFuel = some (rateLimitedResult, engStart, 1) ∧
      engStart.sent = [] ∧ rateLimitedResult.isRateLimited = true) ∧
    (∀ status location, env.create 0 = .resp status location → status ≠ 201 → status ≠ 429 →
      uploadWithTusStreaming env fileSize chunkFuel =
        some (⟨false, none, some (createFailMsg status), none, false⟩, engStart, 1)) := by
  constructor
  · intro location h
    refine ⟨?_, rfl, rfl⟩
    show tusGo env fileSize chunkFuel (3 + 1) 0 0 engStart = _
    simp only [tusGo, h]
    norm_num
  · intro status location h h201 h429
    show tusGo env fileSize chunkFuel (3 + 1) 0 0 engStart = _
    simp only [tusGo, h]
    rw [if_pos h201, if_neg h429]

/-- C7 witness: rate-limited and generic create failures on concrete
environments. -/
theorem c7_witness :
    (uploadWithTusStreaming env429 77 5 = some (rateLimitedResult, engStart, 1) ∧
      engStart.sent = [] ∧ rateLimitedResult.isRateLimited = true) ∧
    uploadWithTusStreaming envCreate500 77 5 =
      some (⟨false, none, some (createFailMsg 500), none, false⟩, engStart, 1) :=
  ⟨(c7_create_gate env429 77 5).1 none rfl,
   (c7_create_gate envCreate500 77 5).2 500 none rfl (by decide) (by decide)⟩

/-- C10: a HEAD probe whose `fetch` throws is classified as
`⟨sessionExpired := false, offset := none⟩`; the probe signals expiry
exactly for a 404 status or a status ≥ 400 whose body matches the
expiry predicate; and on a thrown probe the retry attempt simply
proceeds to the read/PATCH with the local offset unchanged. -/
theorem c10_probe :
    (∀ msg, checkServerOffset (.netError msg) = ⟨false, none⟩) ∧
    (∀ ev, (checkServerOffset ev).sessionExpired = true ↔
      ∃ r, ev = .resp r ∧
        (r.status = 404 ∨ (400 ≤ r.status ∧ isSessionExpiredError r.status r.body = true))) ∧
    (∀ (env : Env) (fileSize retry : Nat) (st : EngSt) (msg : String),
      env.head st.headCount = .netError msg →
      attemptStep env fileSize (retry + 1) st =
        attemptBody env fileSize { st with headCount := st.headCount + 1 }) := by
  refine ⟨fun msg => rfl, ?_, ?_⟩
  · intro ev
    cases ev with
    | netError msg =>
      simp [checkServerOffset]
    | resp r =>
      unfold checkServerOffset
      dsimp only
      split_ifs with h404 hexp
      · simp only [true_iff]
        exact ⟨r, rfl, Or.inl h404⟩
      · simp only [true_iff]
        exact ⟨r, rfl, Or.inr hexp⟩
      · simp only [false_iff]
        rintro ⟨r', hr', hcase⟩
        cases hr'
        rcases hcase with h | h
        · exact h404 h
        · exact hexp h
  · intro env fileSize retry st msg h
    simp [attemptStep, checkServerOffset, h]

/-- C10 witness: the thrown-probe classification and the unchanged
continuation on a concrete environment whose HEAD throws. -/
theorem c10_witness :
    checkServerOffset (.netError "ECONNRESET") = ⟨false, none⟩ ∧
    attemptStep envC3 5 1 engStart = attemptBody envC3 5 { engStart with headCount := 1 } :=
  ⟨c10_probe.1 "ECONNRESET", c10_probe.2.2 envC3 5 0 engStart "unused" rfl⟩

/-- C6 counterexample: the code adopts a server-reported offset beyond
the file length — a 204 response reporting offset 2 on a 1-byte file
ends the run reporting success with local offset 2 > fileSize, so the
invariant `offset ≤ fileSize` does not hold unconditionally. -/
theorem c6_counterexample :
    ((chunkWhile envOverLength 1 3 engStart).map fun x => (x.1, x.2.offset)) =
      some (.done ⟨true, none, none, none, false⟩, 2) ∧ ¬(2 ≤ 1) := ⟨rfl, by decide⟩

/-! ## Invariant and resource lemma chains -/

theorem readsOk_append {fileSize : Nat} {st : EngSt} (h : ReadsOk fileSize st)
    {pos n : Nat} (hn : n = min CHUNK_SIZE (fileSize - pos)) (hpn : pos + n ≤ fileSize) :
    ReadsOk fileSize { st with readsLog := st.readsLog ++ [(pos, n)] } := by
  intro p hp
  rcases List.mem_append.mp hp with h1 | h1
  · exact h p h1
  · rw [List.mem_singleton] at h1
    subst h1
    exact ⟨hn, hpn⟩

theorem attemptBody_inv {env : Env} {fileSize : Nat} {st : EngSt}
    (hs : EnvSane env fileSize) (ho : st.offset ≤ fileSize) (hr : ReadsOk fileSize st) :
    (attemptBody env fileSize st).state.offset ≤ fileSize ∧
      ReadsOk fileSize (attemptBody env fileSize st).state := by
  have hq : min (st.offset + CHUNK_SIZE) fileSize - st.offset
      = min CHUNK_SIZE (fileSize - st.offset) := by omega
  have hq2 : st.offset + (min (st.offset + CHUNK_SIZE) fileSize - st.offset) ≤ fileSize := by
    omega
  have hlog := readsOk_append hr hq hq2
  simp only [attemptBody]
  split
  · exact ⟨ho, hlog⟩
  · rename_i bytesRead heq
    split
    · exact ⟨ho, hlog⟩
    · split
      · exact ⟨ho, hlog⟩
      · rename_i r hpatch
        split
        · refine ⟨?_, hlog⟩
          rcases huo : r.uploadOffset with _ | o
          · simp only [huo, AttemptOut.state, Option.getD]
            omega
          · simp only [huo, AttemptOut.state, Option.getD]
            exact hs.1 _ r o hpatch huo
        · split
          · split
            · rename_i o huo
              exact ⟨hs.1 _ r o hpatch huo, hlog⟩
            · exact ⟨ho, hlog⟩
          · split
            · exact ⟨ho, hlog⟩
            · exact ⟨ho, hlog⟩

theorem checkServerOffset_offset_eq {ev : NetEvent} {o : Nat}
    (h : (checkServerOffset ev).offset = some o) :
    ∃ r, ev = .resp r ∧ r.uploadOffset = some o := by
  cases ev with
  | netError msg => simp [checkServerOffset] at h
  | resp r =>
    refine ⟨r, rfl, ?_⟩
    unfold checkServerOffset at h
    dsimp only at h
    split_ifs at h
    simp_all

theorem checkServerOffset_offset_le {env : Env} {fileSize : Nat} (hs : EnvSane env fileSize)
    (i o : Nat) (h : (checkServerOffset (env.head i)).offset = some o) : o ≤ fileSize := by
  obtain ⟨r, he, huo⟩ := checkServerOffset_offset_eq h
  exact hs.2 i r o he huo

theorem attemptStep_inv {env : Env} {fileSize : Nat} {st : EngSt} (retry : Nat)
    (hs : EnvSane env fileSize) (ho : st.offset ≤ fileSize) (hr : ReadsOk fileSize st) :
    (attemptStep env fileSize retry st).state.offset ≤ fileSize ∧
      ReadsOk fileSize (attemptStep env fileSize retry st).state := by
  simp only [attemptStep]
  split
  · split
    · exact ⟨ho, hr⟩
    · split
      · rename_i o hoff
        split
        · exact attemptBody_inv hs (checkServerOffset_offset_le hs st.headCount o hoff) hr
        · exact attemptBody_inv hs ho hr
      · exact attemptBody_inv hs ho hr
  · exact attemptBody_inv hs ho hr

theorem retryLoop_inv {env : Env} {fileSize : Nat} (hs : EnvSane env fileSize) :
    ∀ (remaining retry : Nat) (lastError : Option String) (st : EngSt),
      st.offset ≤ fileSize → ReadsOk fileSize st →
      (retryLoopAux env fileSize remaining retry lastError st).state.offset ≤ fileSize ∧
        ReadsOk fileSize (retryLoopAux env fileSize remaining retry lastError st).state
  | 0, _retry, _le, _st, ho, hr => ⟨ho, hr⟩
  | remaining + 1, retry, le, st, ho, hr => by
    have hstep := attemptStep_inv retry hs ho hr
    simp only [retryLoopAux]
    cases hat : attemptStep env fileSize retry st with
    | succeeded st1 => rw [hat] at hstep; exact hstep
    | retryFail newErr st1 =>
      rw [hat] at hstep
      exact retryLoop_inv hs remaining (retry + 1) newErr st1 hstep.1 hstep.2
    | expiredAb st1 => rw [hat] at hstep; exact hstep
    | thrownAb msg st1 => rw [hat] at hstep; exact hstep

theorem chunkWhile_inv {env : Env} {fileSize : Nat} (hs : EnvSane env fileSize) :
    ∀ (fuel : Nat) (st : EngSt) (out : ChunkOut) (st2 : EngSt),
      st.offset ≤ fileSize → ReadsOk fileSize st →
      chunkWhile env fileSize fuel st = some (out, st2) →
      st2.offset ≤ fileSize ∧ ReadsOk fileSize st2
  | 0, _st, _out, _st2, _ho, _hr, h => by cases h
  | fuel + 1, st, out, st2, ho, hr, h => by
    rw [chunkWhile] at h
    split at h
    · have hloop := retryLoop_inv hs MAX_RETRIES 0 none st ho hr
      cases hret : retryLoopAux env fileSize MAX_RETRIES 0 none st with
      | succ st1 =>
        rw [hret] at h hloop
        exact chunkWhile_inv hs fuel st1 out st2 hloop.1 hloop.2 h
      | exhausted le st1 =>
        rw [hret] at h hloop
        cases h
        exact hloop
      | expired st1 =>
        rw [hret] at h hloop
        cases h
        exact hloop
      | thrown msg st1 =>
        rw [hret] at h hloop
        cases h
        exact hloop
    · cases h
      exact ⟨ho, hr⟩

theorem attemptBody_expired_closed {env : Env} {fileSize : Nat} {st st2 : EngSt}
    (h : attemptBody env fileSize st = .expiredAb st2) : st2.handleOpen = false := by
  simp only [attemptBody] at h
  split at h
  · cases h
  · split at h
    · cases h
    · split at h
      · cases h
      · split at h
        · cases h
        · split at h
          · cases h
          · split at h
            · cases h
              rfl
            · cases h

theorem attemptStep_expired_closed {env : Env} {fileSize : Nat} {st st2 : EngSt}
    (retry : Nat) (h : attemptStep env fileSize retry st = .expiredAb st2) :
    st2.handleOpen = false := by
  simp only [attemptStep] at h
  split at h
  · split at h
    · cases h
      rfl
    · exact attemptBody_expired_closed h
  · exact attemptBody_expired_closed h

theorem retryLoop_expired_closed {env : Env} {fileSize : Nat} :
    ∀ (remaining retry : Nat) (lastError : Option String) (st st2 : EngSt),
      retryLoopAux env fileSize remaining retry lastError st = .expired st2 →
      st2.handleOpen = false
  | 0, _retry, _le, _st, _st2, h => by cases h
  | remaining + 1, retry, le, st, st2, h => by
    rw [retryLoopAux] at h
    cases hat : attemptStep env fileSize retry st with
    | succeeded st1 => rw [hat] at h; cases h
    | retryFail newErr st1 =>
      rw [hat] at h
      exact retryLoop_expired_closed remaining (retry + 1) newErr st1 st2 h
    | expiredAb st1 =>
      rw [hat] at h
      cases h
      exact attemptStep_expired_closed retry hat
    | thrownAb msg st1 => rw [hat] at h; cases h

theorem chunkWhile_closed {env : Env} {fileSize : Nat} :
    ∀ (fuel : Nat) (st : EngSt) (out : ChunkOut) (st2 : EngSt),
      chunkWhile env fileSize fuel st = some (out, st2) → st2.handleOpen = false
  | 0, _st, _out, _st2, h => by cases h
  | fuel + 1, st, out, st2, h => by
    rw [chunkWhile] at h
    split at h
    · cases hret : retryLoopAux env fileSize MAX_RETRIES 0 none st with
      | succ st1 =>
        rw [hret] at h
        exact chunkWhile_closed fuel st1 out st2 h
      | exhausted le st1 =>
        rw [hret] at h
        cases h
        rfl
      | expired st1 =>
        rw [hret] at h
        cases h
        exact retryLoop_expired_closed MAX_RETRIES 0 none st st2 hret
      | thrown msg st1 =>
        rw [hret] at h
        cases h
        rfl
    · cases h
      rfl

/-- C6 amended: every logged read asks for exactly
`min(CHUNK_SIZE, fileSize - pos)` bytes at a position within the file,
and — provided every server-reported offset (PATCH success/409 headers
and HEAD probe) is at most `fileSize`, which the code adopts
unvalidated — the loop maintains `offset ≤ fileSize`; moreover a read
returning fewer bytes than requested is never sent: the attempt ends
as a local retry with the PATCH log unchanged. -/
theorem c6_amended :
    (∀ (env : Env) (fileSize fuel : Nat) (st : EngSt) (out : ChunkOut) (st2 : EngSt),
      EnvSane env fileSize → st.offset ≤ fileSize → ReadsOk fileSize st →
      chunkWhile env fileSize fuel st = some (out, st2) →
      st2.offset ≤ fileSize ∧ ReadsOk fileSize st2) ∧
    (∀ (env : Env) (fileSize : Nat) (st : EngSt) (bytesRead : Nat),
      env.read st.readsLog.length (min (st.offset + CHUNK_SIZE) fileSize - st.offset)
        = .bytes bytesRead →
      bytesRead ≠ min (st.offset + CHUNK_SIZE) fileSize - st.offset →
      attemptStep env fileSize 0 st =
        .retryFail
          (some (readFailMsg (min (st.offset + CHUNK_SIZE) fileSize - st.offset) bytesRead))
          { st with readsLog :=
              st.readsLog ++ [(st.offset, min (st.offset + CHUNK_SIZE) fileSize - st.offset)] }) := by
  constructor
  · intro env fileSize fuel st out st2 hs ho hr h
    exact chunkWhile_inv hs fuel st out st2 ho hr h
  · intro env fileSize st bytesRead hread hne
    simp [attemptStep, attemptBody, hread, hne]

/-- C6 amended witness: the clean one-chunk run keeps the invariant,
and a short read (3 of 5 bytes) is not sent. -/
theorem c6_amended_witness :
    ((⟨5, some "lec1", [(0, 5)], 0, [(0, 5)], false⟩ : EngSt).offset ≤ 5 ∧
      ReadsOk 5 ⟨5, some "lec1", [(0, 5)], 0, [(0, 5)], false⟩) ∧
    attemptStep envShortRead 5 0 engStart =
      .retryFail (some (readFailMsg 5 3)) { engStart with readsLog := [(0, 5)] } :=
  ⟨c6_amended.1 envClean 5 3 engStart (.done ⟨true, some "lec1", none, none, false⟩)
      ⟨5, some "lec1", [(0, 5)], 0, [(0, 5)], false⟩
      ⟨fun i r o h1 h2 => by
          simp only [envClean] at h1
          cases h1
          simp only at h2
          cases h2
          decide,
        fun i r o h1 h2 => by simp [envClean] at h1⟩
      (by decide) (fun p hp => by cases hp) rfl,
   c6_amended.2 envShortRead 5 engStart 3 rfl (by decide)⟩

/-- C9: `uploadChunksStreaming` opens the file read-only (`"r"`), and
whenever the chunk loop returns — success, retry-budget exhaustion,
expiry detected at the HEAD probe or at a PATCH response, or a thrown
read rethrown after cleanup — the returned state has the file handle
closed. -/
theorem c9_handle_closed (env : Env) (fileSize fuel : Nat) (st : EngSt)
    (out : ChunkOut) (st2 : EngSt)
    (h : chunkWhile env fileSize fuel st = some (out, st2)) :
    st2.handleOpen = false ∧ fileOpenMode = "r" :=
  ⟨chunkWhile_closed fuel st out st2 h, rfl⟩

/-- C9 witness: the clean run ends with the handle closed. -/
theorem c9_witness :
    (⟨5, some "lec1", [(0, 5)], 0, [(0, 5)], false⟩ : EngSt).handleOpen = false ∧
      fileOpenMode = "r" :=
  c9_handle_closed envClean 5 3 engStart (.done ⟨true, some "lec1", none, none, false⟩)
    ⟨5, some "lec1", [(0, 5)], 0, [(0, 5)], false⟩ rfl

/-- C8 counterexample: a reference resolved through the HTTP-download
fallback yields a resolver-created temp file equal to the actual path;
after a successful upload the cleanup deletes nothing (the temp-file
branch requires `tempPath ≠ actualPath` and the source-file branch
requires a storage-root original), so the temp file survives — the
claim that temp files are always deleted on success fails. -/
theorem c8_counterexample :
    resolveFilePath fsHttpOnly "documents/file_7" =
      some ⟨"/tmp/telegram-file-1.tmp", some "/tmp/telegram-file-1.tmp"⟩ ∧
    uploadFromLocalPathDeletions
      ⟨"/tmp/telegram-file-1.tmp", some "/tmp/telegram-file-1.tmp"⟩
      ⟨true, some "lec1", none, none, false⟩ "documents/file_7" = [] := ⟨rfl, rfl⟩

/-- C8 amended: on any failed result nothing is deleted; on success the
cleanup list is exactly `cleanupFiles`, which deletes the temp file
only when it differs from the actual path and deletes the source file
exactly when the original reference lies under the relay storage root;
and the resolver only ever returns `tempPath` equal to `actualPath`
(or no temp at all), so on success a resolver temp is deleted only via
the storage-root source branch. -/
theorem c8_amended :
    (∀ (resolved : ResolveOut) (result : UploadResult) (originalPath : String),
      result.success = false →
      uploadFromLocalPathDeletions resolved result originalPath = []) ∧
    (∀ (resolved : ResolveOut) (result : UploadResult) (originalPath : String),
      result.success = true →
      uploadFromLocalPathDeletions resolved result originalPath =
        cleanupFiles resolved.actualPath resolved.tempPath originalPath) ∧
    (∀ (a t o : String), t ≠ a → t ∈ cleanupFiles a (some t) o) ∧
    (∀ (a o : String) (t : Option String), strStartsWith o botApiRoot = true →
      a ∈ cleanupFiles a t o) ∧
    (∀ (fs : FsEnv) (p : String) (r : ResolveOut), resolveFilePath fs p = some r →
      r.tempPath = none ∨ r.tempPath = some r.actualPath) := by
  refine ⟨?_, ?_, ?_, ?_, ?_⟩
  · intro resolved result originalPath hfail
    simp [uploadFromLocalPathDeletions, hfail]
  · intro resolved result originalPath hsucc
    simp [uploadFromLocalPathDeletions, hsucc]
  · intro a t o hne
    simp only [cleanupFiles, if_pos hne]
    exact List.mem_append_left _ (List.mem_singleton.mpr rfl)
  · intro a o t hroot
    apply List.mem_append_right
    rw [if_pos hroot]
    exact List.mem_singleton.mpr rfl
  · intro fs p r h
    simp only [resolveFilePath] at h
    split at h
    · split at h
      · cases h
        exact Or.inl rfl
      · split at h
        · rename_i r1 hr1
          cases h
          split at hr1
          · split_ifs at hr1
            cases hr1
            exact Or.inl rfl
          · cases hr1
        · split_ifs at h
          cases h
          exact Or.inr rfl
    · split_ifs at h
      cases h
      exact Or.inr rfl

/-- C8 amended witness: a failed result deletes nothing, and a
storage-root original gets its source file deleted. -/
theorem c8_amended_witness :
    uploadFromLocalPathDeletions ⟨"/a", some "/a"⟩ ⟨false, none, some "err", none, false⟩
      "/x" = [] ∧
    "/var/lib/telegram-bot-api/f.mp4" ∈
      cleanupFiles "/var/lib/telegram-bot-api/f.mp4" none "/var/lib/telegram-bot-api/f.mp4" :=
  ⟨c8_amended.1 ⟨"/a", some "/a"⟩ ⟨false, none, some "err", none, false⟩ "/x" rfl,
   c8_amended.2.2.2.1 "/var/lib/telegram-bot-api/f.mp4" "/var/lib/telegram-bot-api/f.mp4"
     none (by decide)⟩

/-- Every `done` outcome of the chunk loop carries `success = true` and
every `failedOut` outcome carries `success = false` with an error
message. -/
theorem chunkWhile_out_structured {env : Env} {fileSize : Nat} :
    ∀ (fuel : Nat) (st : EngSt) (out : ChunkOut) (st2 : EngSt),
      chunkWhile env fileSize fuel st = some (out, st2) →
      (∀ r, out = .done r → r.success = true) ∧
      (∀ r, out = .failedOut r → r.success = false ∧ r.error.isSome = true)
  | 0, _st, _out, _st2, h => by cases h
  | fuel + 1, st, out, st2, h => by
    rw [chunkWhile] at h
    split at h
    · cases hret : retryLoopAux env fileSize MAX_RETRIES 0 none st with
      | succ st1 =>
        rw [hret] at h
        exact chunkWhile_out_structured fuel st1 out st2 h
      | exhausted le st1 =>
        rw [hret] at h
        cases h
        constructor
        · intro r hr
          cases hr
        · intro r hr
          cases hr
          exact ⟨rfl, rfl⟩
      | expired st1 =>
        rw [hret] at h
        cases h
        refine ⟨fun r hr => ?_, fun r hr => ?_⟩
        · cases hr
        · cases hr
      | thrown msg st1 =>
        rw [hret] at h
        cases h
        refine ⟨fun r hr => ?_, fun r hr => ?_⟩
        · cases hr
        · cases hr
    · cases h
      refine ⟨fun r hr => ?_, fun r hr => ?_⟩
      · cases hr
        rfl
      · cases hr

/-- Every value the session-restart loop returns is a structured
result: success, or a failure carrying an error message — including
the branches that catch thrown events. -/
theorem tusGo_structured {env : Env} {fileSize chunkFuel : Nat} :
    ∀ (itersLeft sessionRestarts createCount : Nat) (st : EngSt)
      (r : UploadResult) (st2 : EngSt) (createCount2 : Nat),
      tusGo env fileSize chunkFuel itersLeft sessionRestarts createCount st
        = some (r, st2, createCount2) →
      r.success = true ∨ r.error.isSome = true
  | 0, _sr, _cc, _st, r, _st2, _cc2, h => by
    rw [tusGo] at h
    cases h
    exact Or.inr rfl
  | itersLeft + 1, sr, cc, st, r, st2, cc2, h => by
    rw [tusGo] at h
    cases hc : env.create cc with
    | netError msg =>
      rw [hc] at h
      cases h
      exact Or.inr rfl
    | resp status location =>
      rw [hc] at h
      dsimp only at h
      split at h
      · split at h
        · cases h
          exact Or.inr rfl
        · cases h
          exact Or.inr rfl
      · cases location with
        | none =>
          cases h
          exact Or.inr rfl
        | some loc =>
          dsimp only at h
          cases hw : chunkWhile env fileSize chunkFuel (freshSession st) with
          | none =>
            rw [hw] at h
            cases h
          | some p =>
            obtain ⟨out, st1⟩ := p
            rw [hw] at h
            dsimp only at h
            cases out with
            | expiredOut =>
              dsimp only at h
              split at h
              · cases h
                exact Or.inr rfl
              · exact tusGo_structured itersLeft (sr + 1) (cc + 1) st1 r st2 cc2 h
            | done r1 =>
              have hgood := (chunkWhile_out_structured chunkFuel (freshSession st)
                (.done r1) st1 hw).1 r1 rfl
              cases h
              exact Or.inl hgood
            | failedOut r1 =>
              have hbad := ((chunkWhile_out_structured chunkFuel (freshSession st)
                (.failedOut r1) st1 hw).2 r1 rfl).2
              cases h
              exact Or.inr hbad
            | thrown msg =>
              cases h
              exact Or.inr rfl

/-- C3 amended: a fresh session starts with offset 0 and no partial
progress; on every detected expiry within the restart bound the
controller consumes exactly one restart unit and loops with the next
session; on every detected expiry beyond the bound (3) it returns the
terminal structured session-expired result; every returned outcome is
a structured result (success, or an error message — never an uncaught
fault); and in the chunk-5-of-10 scenario one expiry yields 15
transfer requests across two sessions (sent offsets 0..4 chunks, then
0..9 chunks from a restarted offset 0), final result success, while
four straight expiries end in the terminal session-expired result. -/
theorem c3_amended :
    (∀ st : EngSt, (freshSession st).offset = 0 ∧ (freshSession st).lectureId = none) ∧
    (∀ (env : Env) (fileSize chunkFuel itersLeft sessionRestarts createCount : Nat)
        (st st1 : EngSt) (loc : String),
      env.create createCount = .resp 201 (some loc) →
      chunkWhile env fileSize chunkFuel (freshSession st) = some (.expiredOut, st1) →
      sessionRestarts + 1 ≤ MAX_SESSION_RESTARTS →
      tusGo env fileSize chunkFuel (itersLeft + 1) sessionRestarts createCount st =
        tusGo env fileSize chunkFuel itersLeft (sessionRestarts + 1) (createCount + 1) st1) ∧
    (∀ (env : Env) (fileSize chunkFuel itersLeft sessionRestarts createCount : Nat)
        (st st1 : EngSt) (loc : String),
      env.create createCount = .resp 201 (some loc) →
      chunkWhile env fileSize chunkFuel (freshSession st) = some (.expiredOut, st1) →
      MAX_SESSION_RESTARTS < sessionRestarts + 1 →
      tusGo env fileSize chunkFuel (itersLeft + 1) sessionRestarts createCount st =
        some (⟨false, none,
          some "Upload session expired multiple times. Please try again later.",
          none, false⟩, st1, createCount + 1)) ∧
    (∀ (env : Env) (fileSize chunkFuel itersLeft sessionRestarts createCount : Nat)
        (st : EngSt) (r : UploadResult) (st2 : EngSt) (createCount2 : Nat),
      tusGo env fileSize chunkFuel itersLeft sessionRestarts createCount st
        = some (r, st2, createCount2) →
      r.success = true ∨ r.error.isSome = true) ∧
    ((uploadWithTusStreaming envC3 52428800 20).map fun x =>
        (x.1, x.2.1.sent.map Prod.fst, x.2.2)) =
      some (⟨true, some "lec42", none, none, false⟩,
        [0, 5242880, 10485760, 15728640, 20971520,
         0, 5242880, 10485760, 15728640, 20971520, 26214400, 31457280,
         36700160, 41943040, 47185920], 2) ∧
    ((uploadWithTusStreaming envExpireAll 52428800 20).map fun x =>
        (x.1, x.2.1.sent.length, x.2.2)) =
      some (⟨false, none,
        some "Upload session expired multiple times. Please try again later.",
        none, false⟩, 4, 4) := by
  refine ⟨fun st => ⟨rfl, rfl⟩, ?_, ?_, ?_, rfl, rfl⟩
  · intro env fileSize chunkFuel itersLeft sessionRestarts createCount st st1 loc hc hw hb
    have hno : ¬(sessionRestarts + 1 > MAX_SESSION_RESTARTS) := by omega
    simp only [tusGo, hc, hw]
    simp [hno]
  · intro env fileSize chunkFuel itersLeft sessionRestarts createCount st st1 loc hc hw hb
    have hyes : sessionRestarts + 1 > MAX_SESSION_RESTARTS := by omega
    simp only [tusGo, hc, hw]
    simp [hyes]
  · intro env fileSize chunkFuel itersLeft sessionRestarts createCount st r st2 cc2 h
    exact tusGo_structured itersLeft sessionRestarts createCount st r st2 cc2 h

/-- C3 amended witness: the scenario's first expiry consumes one
restart unit and continues with the post-expiry state; an expiry at
`sessionRestarts = 3` returns the terminal structured result; and that
result is structured (carries an error message). -/
theorem c3_amended_witness :
    (freshSession engStart).offset = 0 ∧
    tusGo envC3 52428800 20 (3 + 1) 0 0 engStart =
      tusGo envC3 52428800 20 3 1 1
        ⟨20971520, none,
         [(0, 5242880), (5242880, 5242880), (10485760, 5242880),
          (15728640, 5242880), (20971520, 5242880)], 0,
         [(0, 5242880), (5242880, 5242880), (10485760, 5242880),
          (15728640, 5242880), (20971520, 5242880)], false⟩ ∧
    tusGo envExpireAll 52428800 20 (0 + 1) 3 0 engStart =
      some (⟨false, none,
        some "Upload session expired multiple times. Please try again later.",
        none, false⟩, ⟨0, none, [(0, 5242880)], 0, [(0, 5242880)], false⟩, 1) ∧
    ((⟨false, none,
        some "Upload session expired multiple times. Please try again later.",
        none, false⟩ : UploadResult).success = true ∨
      (⟨false, none,
        some "Upload session expired multiple times. Please try again later.",
        none, false⟩ : UploadResult).error.isSome = true) :=
  ⟨(c3_amended.1 engStart).1,
   c3_amended.2.1 envC3 52428800 20 3 0 0 engStart
     ⟨20971520, none,
      [(0, 5242880), (5242880, 5242880), (10485760, 5242880),
       (15728640, 5242880), (20971520, 5242880)], 0,
      [(0, 5242880), (5242880, 5242880), (10485760, 5242880),
       (15728640, 5242880), (20971520, 5242880)], false⟩
     "/api/v1/uploads/u1" rfl rfl (by decide),
   c3_amended.2.2.1 envExpireAll 52428800 20 0 3 0 engStart
     ⟨0, none, [(0, 5242880)], 0, [(0, 5242880)], false⟩
     "/api/v1/uploads/u1" rfl rfl (by decide),
   c3_amended.2.2.2.1 envExpireAll 52428800 20 1 3 0 engStart
     ⟨false, none,
      some "Upload session expired multiple times. Please try again later.",
      none, false⟩
     ⟨0, none, [(0, 5242880)], 0, [(0, 5242880)], false⟩ 1 rfl⟩

end Majlees
